import Mathlib

/-!
# Verification of the operations-tracker interpreter and aggregator

Shallow embedding of the core logic of `backend/server.js` of the
`from-chaos-to-clarity` repository: the `processInput` interpretation
pipeline (category classification, severity detection, entity extraction,
metric extraction) and the `/api/analytics` and `/api/trends` aggregation
handlers.

Modelling conventions:
* JS strings are Lean `String`s, manipulated as `List Char`.
* `String.prototype.toLowerCase` is `Char.toLower` mapped over the text
  (the inputs of interest are ASCII, where the two agree).
* JS regexes are embedded as explicit scanners.  Each pattern in the source
  is simple enough (no interesting backtracking: the greedy path is the
  only path that can succeed) that a direct greedy scanner has exactly the
  regex's leftmost-match semantics; global (`g`) matching is a scan that
  resumes after each match, non-global matching returns the first match.
* Timestamps (`new Date().toISOString()` strings / epoch milliseconds) are
  epoch-millisecond integers `Int`; the ISO calendar-date portion of a
  timestamp is in bijection with its floor-division day number, so the
  string comparison `e.timestamp.split('T')[0] === dateStr` is embedded as
  equality of `Int.fdiv · msPerDay` day numbers.
* JS objects used as counters (`obj[k] = (obj[k] || 0) + 1`) are
  association lists `List (String × Nat)` with in-place update and
  insertion-order append, matching JS object key ordering.
-/

namespace OpsTracker

/-- Lower-case a whole string, as `input.toLowerCase()` does. -/
def lowerStr (s : String) : List Char :=
  s.data.map Char.toLower

/-- `needle` occurs as a prefix of `hay` (exact character equality). -/
def prefixAt : List Char → List Char → Bool
  | [], _ => true
  | _ :: _, [] => false
  | a :: as, b :: bs => a = b && prefixAt as bs

/-- `String.prototype.includes`: `needle` occurs as a contiguous substring
of `hay`. -/
def containsSub (needle : List Char) : List Char → Bool
  | [] => needle.isEmpty
  | b :: bs => prefixAt needle (b :: bs) || containsSub needle bs

/-- `input.includes(w)` for a string literal `w`, over the lower-cased
input. -/
def inclKw (input : List Char) (w : String) : Bool :=
  containsSub w.data input

/-- Category classification of `processInput`: the cascading conditional
over the lower-cased input, first matching branch wins. -/
def categoryOf (input : List Char) : String :=
  if inclKw input "fail" || inclKw input "error" || inclKw input "overheat" ||
     inclKw input "crash" || inclKw input "malfunction" then "issue"
  else if inclKw input "delay" || inclKw input "late" || inclKw input "postpone" then "delay"
  else if inclKw input "qa" || inclKw input "quality" || inclKw input "defect" ||
          inclKw input "inspection" then "quality"
  else "event"

/-- Severity detection of `processInput`. -/
def severityOf (input : List Char) : String :=
  if inclKw input "critical" || inclKw input "urgent" || inclKw input "emergency" ||
     inclKw input "severe" then "high"
  else if inclKw input "important" || inclKw input "significant" ||
          inclKw input "major" then "medium"
  else "low"

/-- Match the literal word `w` (given lower-case) case-insensitively as a
prefix of `cs`; return the consumed characters in their original case and
the remaining input.  Embeds a `/i` literal alternative. -/
def matchWordCI : List Char → List Char → Option (List Char × List Char)
  | [], cs => some ([], cs)
  | _ :: _, [] => none
  | p :: ps, c :: cs =>
    if c.toLower = p then
      match matchWordCI ps cs with
      | some (m, r) => some (c :: m, r)
      | none => none
    else none

/-- Try a list of literal alternatives in order (regex `(w1|w2|...)` with
`/i`); first that matches wins. -/
def firstAltCI : List String → List Char → Option (List Char × List Char)
  | [], _ => none
  | w :: ws, cs =>
    match matchWordCI w.data cs with
    | some r => some r
    | none => firstAltCI ws cs

/-- Greedy `\d+` / `\d*`: split off the leading digit run. -/
def spanDigits (cs : List Char) : List Char × List Char :=
  (cs.takeWhile Char.isDigit, cs.dropWhile Char.isDigit)

/-- Greedy `\s*`: drop leading whitespace. -/
def dropSpaces (cs : List Char) : List Char :=
  cs.dropWhile Char.isWhitespace

/-- Number of leading whitespace characters (to check `\s+`). -/
def countSpaces (cs : List Char) : Nat :=
  (cs.takeWhile Char.isWhitespace).length

/-- First match of a position matcher over the input: the non-global
`String.prototype.match` semantics (leftmost match only). -/
def scanFirst (f : List Char → Option α) : List Char → Option α
  | [] => none
  | c :: cs =>
    match f (c :: cs) with
    | some x => some x
    | none => scanFirst f cs

/-- All matches of a position matcher, resuming after each match: the
global (`/g`) `String.prototype.match` semantics.  Every matcher used
consumes at least one character on success, so fuel equal to the input
length is exact. -/
def scanAllAux (f : List Char → Option (List Char × List Char)) :
    Nat → List Char → List (List Char)
  | 0, _ => []
  | _ + 1, [] => []
  | fuel + 1, c :: cs =>
    match f (c :: cs) with
    | some (m, rest) => m :: scanAllAux f fuel rest
    | none => scanAllAux f fuel cs

/-- All matches of `f` over `cs`, left to right, non-overlapping. -/
def scanAll (f : List Char → Option (List Char × List Char))
    (cs : List Char) : List (List Char) :=
  scanAllAux f cs.length cs

/-- The numeric value of a captured digit string, as JS `Number` / `parseInt`
coercion computes it for an all-digit string. -/
def digitsToNat (ds : List Char) : Nat :=
  ds.foldl (fun n c => n * 10 + (c.toNat - '0'.toNat)) 0

/-! ## Metric matchers (position matchers for the non-global regexes) -/

/-- `/(\d+)\s*(hour|minute|day|week)s?/i` at the current position: returns
the captured digit text and the unit text as matched (original case). -/
def durAt (cs : List Char) : Option (List Char × List Char) :=
  let (ds, r1) := spanDigits cs
  if ds.isEmpty then none
  else
    match firstAltCI ["hour", "minute", "day", "week"] (dropSpaces r1) with
    | some (u, _) => some (ds, u)
    | none => none

/-- `/(\d+)\s*(degree|°|celsius|fahrenheit)/i` at the current position:
returns the captured digit text. -/
def tempAt (cs : List Char) : Option (List Char) :=
  let (ds, r1) := spanDigits cs
  if ds.isEmpty then none
  else
    match firstAltCI ["degree", "°", "celsius", "fahrenheit"] (dropSpaces r1) with
    | some _ => some ds
    | none => none

/-- `/(\d+\.?\d*)\s*(v|volt|voltage)/i` at the current position: returns
the captured number text (digits, optional dot, digits). -/
def voltAt (cs : List Char) : Option (List Char) :=
  let (ds, r1) := spanDigits cs
  if ds.isEmpty then none
  else
    let (num, r2) :=
      match r1 with
      | '.' :: r => let (ds2, r3) := spanDigits r; (ds ++ '.' :: ds2, r3)
      | _ => (ds, r1)
    match firstAltCI ["v", "volt", "voltage"] (dropSpaces r2) with
    | some _ => some num
    | none => none

/-- `/(\d+)\s*(unit|piece|item)s?/i` at the current position: returns the
captured digit text. -/
def countAt (cs : List Char) : Option (List Char) :=
  let (ds, r1) := spanDigits cs
  if ds.isEmpty then none
  else
    match firstAltCI ["unit", "piece", "item"] (dropSpaces r1) with
    | some _ => some ds
    | none => none

/-! ## Entity matchers (position matchers for the global regexes) -/

/-- The component-noun alternatives of the first entity pattern, in source
order. -/
def componentWords : List String :=
  ["motor", "pcb", "board", "circuit", "sensor", "controller", "relay",
   "switch", "battery", "capacitor"]

/-- `/motor|pcb|board|circuit|sensor|controller|relay|switch|battery|capacitor/gi`
at the current position. -/
def compAt (cs : List Char) : Option (List Char × List Char) :=
  firstAltCI componentWords cs

/-- `/version\s+\d+/gi` at the current position. -/
def versionAt (cs : List Char) : Option (List Char × List Char) :=
  match matchWordCI "version".data cs with
  | some (w, r1) =>
    let sp := r1.takeWhile Char.isWhitespace
    if sp.isEmpty then none
    else
      let r2 := r1.dropWhile Char.isWhitespace
      let (ds, r3) := spanDigits r2
      if ds.isEmpty then none else some (w ++ sp ++ ds, r3)
  | none => none

/-- One `[a-z]` character under `/i`. -/
def isLatinLetter (c : Char) : Bool :=
  'a' ≤ c.toLower && c.toLower ≤ 'z'

/-- `/node\s+[a-z]/gi` at the current position. -/
def nodeAt (cs : List Char) : Option (List Char × List Char) :=
  match matchWordCI "node".data cs with
  | some (w, r1) =>
    let sp := r1.takeWhile Char.isWhitespace
    if sp.isEmpty then none
    else
      match r1.dropWhile Char.isWhitespace with
      | c :: r2 => if isLatinLetter c then some (w ++ sp ++ [c], r2) else none
      | [] => none
  | none => none

/-- One `[a-z0-9]` character under `/i`. -/
def isAlnum (c : Char) : Bool :=
  isLatinLetter c || c.isDigit

/-- `/vendor\s+([a-z0-9]+)/gi` at the current position (the `/g` match
collects the full span, group ignored). -/
def vendorAt (cs : List Char) : Option (List Char × List Char) :=
  match matchWordCI "vendor".data cs with
  | some (w, r1) =>
    let sp := r1.takeWhile Char.isWhitespace
    if sp.isEmpty then none
    else
      let r2 := r1.dropWhile Char.isWhitespace
      let tok := r2.takeWhile isAlnum
      if tok.isEmpty then none
      else some (w ++ sp ++ tok, r2.dropWhile isAlnum)
  | none => none

/-- The raw entity list of `processInput`, before deduplication: all
matches of the three component patterns followed by the vendor pattern,
against the original-case input. -/
def rawEntities (raw : List Char) : List String :=
  ((scanAll compAt raw ++ scanAll versionAt raw ++ scanAll nodeAt raw)
     ++ scanAll vendorAt raw).map List.asString

/-- Worker for `dedupFirst`: keep an element when it has not been seen
yet, tracking the set of already-emitted elements. -/
def dedupFirstAux (seen : List String) : List String → List String
  | [] => []
  | a :: t =>
    if a ∈ seen then dedupFirstAux seen t
    else a :: dedupFirstAux (a :: seen) t

/-- `[...new Set(l)]`: remove duplicates (exact string equality), keeping
the first occurrence of each element, order preserved. -/
def dedupFirst (l : List String) : List String :=
  dedupFirstAux [] l

/-- The value returned by `processInput`: category, severity, deduplicated
entities, and the optional extracted metrics (a JS object whose keys are
present only when the corresponding pattern matched). -/
structure Annot where
  category : String
  severity : String
  entities : List String
  duration : Option String
  temperature : Option String
  voltage : Option String
  quantity : Option Nat
deriving DecidableEq, Repr

/-- The `duration` metric: first match of the duration pattern, stored as
`` `${m[1]} ${m[2]}${m[1] > 1 ? 's' : ''}` `` — JS coerces the captured
digit string to a number for the `> 1` comparison. -/
def durationOf (raw : List Char) : Option String :=
  (scanFirst durAt raw).map fun (ds, u) =>
    ds.asString ++ " " ++ u.asString ++ (if 1 < digitsToNat ds then "s" else "")

/-- The `temperature` metric: first match, stored as `` `${m[1]}°` ``. -/
def temperatureOf (raw : List Char) : Option String :=
  (scanFirst tempAt raw).map fun ds => ds.asString ++ "°"

/-- The `voltage` metric: first match, stored as `` `${m[1]}V` ``. -/
def voltageOf (raw : List Char) : Option String :=
  (scanFirst voltAt raw).map fun num => num.asString ++ "V"

/-- The `quantity` metric: first match, stored as `parseInt(m[1])`. -/
def quantityOf (raw : List Char) : Option Nat :=
  (scanFirst countAt raw).map digitsToNat

/-- `processInput(rawInput)` from `server.js`. -/
def processInput (rawInput : String) : Annot :=
  let input := lowerStr rawInput
  let raw := rawInput.data
  { category := categoryOf input
    severity := severityOf input
    entities := dedupFirst (rawEntities raw)
    duration := durationOf raw
    temperature := temperatureOf raw
    voltage := voltageOf raw
    quantity := quantityOf raw }

/-! ## Aggregator (`/api/analytics` and `/api/trends` handlers) -/

/-- A stored entry, as built by `POST /api/entries`: the annotation fields
plus the creation timestamp.  `timestamp` is the epoch-millisecond instant
whose ISO string the code stores; `id` and `raw_input` play no role in the
aggregation logic and are omitted. -/
structure Entry where
  category : String
  severity : String
  entities : List String
  timestamp : Int
deriving DecidableEq, Repr

/-- Milliseconds per day (`24 * 60 * 60 * 1000`). -/
def msPerDay : Int := 86400000

/-- The calendar-day number of an epoch-millisecond instant: the ISO
calendar-date portion of the instant's ISO string is in bijection with
this floor-division day count, so ISO date-string equality is day-number
equality. -/
def dayOf (t : Int) : Int :=
  Int.fdiv t msPerDay

/-- `obj[k] = (obj[k] || 0) + 1` on a JS object used as a counter:
update the existing key in place, or append a new key (JS objects keep
string keys in insertion order). -/
def bump (k : String) : List (String × Nat) → List (String × Nat)
  | [] => [(k, 1)]
  | (k', v) :: t => if k' = k then (k', v + 1) :: t else (k', v) :: bump k t

/-- Tally of a list of keys into a counter object. -/
def tally (ks : List String) : List (String × Nat) :=
  ks.foldl (fun m k => bump k m) []

/-- Stable descending insertion by count: insert `p` before the first
element of strictly smaller count. -/
def insertByCountDesc (p : String × Nat) :
    List (String × Nat) → List (String × Nat)
  | [] => [p]
  | q :: t => if q.2 < p.2 then p :: q :: t else q :: insertByCountDesc p t

/-- `Array.prototype.sort((a, b) => b[1] - a[1])`: stable sort by
descending count (ES2019 sort is stable). -/
def sortByCountDesc (l : List (String × Nat)) : List (String × Nat) :=
  l.foldl (fun acc p => insertByCountDesc p acc) []

/-- The value returned by `GET /api/analytics`.  `recent_trend` entries
are (day number, count) pairs standing for the `{date, count}` objects. -/
structure Analytics where
  total : Nat
  by_category : List (String × Nat)
  by_severity : List (String × Nat)
  recent_trend : List (Int × Nat)
  top_entities : List (String × Nat)
deriving DecidableEq, Repr

/-- The `/api/analytics` handler over the current entry list, at
query-time instant `now` (epoch ms). -/
def analytics (now : Int) (entries : List Entry) : Analytics :=
  let sevenDaysAgo := now - 7 * msPerDay
  { total := entries.length
    by_category := tally (entries.map Entry.category)
    by_severity := tally (entries.map Entry.severity)
    recent_trend :=
      (List.range 7).map fun i =>
        let d := dayOf (sevenDaysAgo + (i : Int) * msPerDay)
        (d, (entries.filter fun e => dayOf e.timestamp = d).length)
    top_entities :=
      (sortByCountDesc
        (tally (entries.foldl (fun acc e => acc ++ e.entities) []))).take 10 }

/-- JS `parseInt` on a string: skip leading whitespace, optional sign,
then a nonempty run of decimal digits (trailing junk ignored); `none`
stands for `NaN`. -/
def parseIntJS (s : String) : Option Int :=
  let cs := s.data.dropWhile Char.isWhitespace
  let (neg, cs) :=
    match cs with
    | '-' :: r => (true, r)
    | '+' :: r => (false, r)
    | r => (false, r)
  let ds := cs.takeWhile Char.isDigit
  if ds.isEmpty then none
  else some (if neg then -(digitsToNat ds : Int) else (digitsToNat ds : Int))

/-- The value returned by `GET /api/trends`.  `period_days = none` stands
for `NaN`; `avg_per_day` is the exact rational value of
`filtered.length / parseInt(days)` (the `.toFixed(2)` string rendering of
that quotient is presentation and not modelled), with `none` standing for
the `"NaN"` rendering when `days` is non-numeric. -/
structure TrendReport where
  period_days : Option Int
  total_entries : Nat
  avg_per_day : Option ℚ
  categories : List (String × Nat)
  severities : List (String × Nat)
deriving DecidableEq, Repr

/-- The `/api/trends` handler.  `daysParam = none` is an absent `days`
query parameter, in which case destructuring defaults it to the number
`30`; a present parameter is the raw query string, run through
`parseInt`.  A `NaN` day count makes `startDate` an invalid date, and
`new Date(e.timestamp) >= startDate` is then false for every entry, so
the filtered list is empty. -/
def trendsReport (daysParam : Option String) (now : Int)
    (entries : List Entry) : TrendReport :=
  let d : Option Int :=
    match daysParam with
    | none => some 30
    | some s => parseIntJS s
  match d with
  | none =>
    { period_days := none
      total_entries := 0
      avg_per_day := none
      categories := []
      severities := [] }
  | some d =>
    let filtered := entries.filter fun e => now - d * msPerDay ≤ e.timestamp
    { period_days := some d
      total_entries := filtered.length
      avg_per_day := some ((filtered.length : ℚ) / (d : ℚ))
      categories := tally (filtered.map Entry.category)
      severities := tally (filtered.map Entry.severity) }

/-! ## Spec-side definitions (for refinement comparison) -/

/-- The category keyword groups as an ordered rule table, in the priority
order the spec states: issue, then delay, then quality. -/
def categoryRules : List (String × List String) :=
  [("issue", ["fail", "error", "overheat", "crash", "malfunction"]),
   ("delay", ["delay", "late", "postpone"]),
   ("quality", ["qa", "quality", "defect", "inspection"])]

/-- The severity keyword groups as an ordered rule table: high, then
medium. -/
def severityRules : List (String × List String) :=
  [("high", ["critical", "urgent", "emergency", "severe"]),
   ("medium", ["important", "significant", "major"])]

/-- Spec-side evaluation of an ordered rule table: the first rule one of
whose keywords occurs in the input wins; otherwise the default. -/
def firstMatchRule : List (String × List String) → String → List Char → String
  | [], dflt, _ => dflt
  | r :: rs, dflt, input =>
    if r.2.any (fun w => inclKw input w) then r.1
    else firstMatchRule rs dflt input

/-- The duration metric as claim C3 words it: the trailing "s" is
appended exactly when the matched digit string, compared character-wise
against the string "1", differs from "1".  For comparison against the
source's `durationOf`, which coerces the digit string to a number and
tests `> 1`. -/
def durationByStringCmp (raw : List Char) : Option String :=
  (scanFirst durAt raw).map fun (ds, u) =>
    ds.asString ++ " " ++ u.asString ++ (if ds.asString = "1" then "" else "s")

/-- Total count held by a counter object: the sum of its values. -/
def sumCounts (m : List (String × Nat)) : Nat :=
  (m.map Prod.snd).sum

/-! ## Helper lemmas -/

theorem not_mem_seen_dedupFirstAux (seen l : List String) :
    ∀ x ∈ dedupFirstAux seen l, x ∉ seen := by
  induction l generalizing seen with
  | nil => simp [dedupFirstAux]
  | cons a t ih =>
    intro x hx
    rw [dedupFirstAux] at hx
    split at hx
    · exact ih seen x hx
    · rcases List.mem_cons.mp hx with rfl | h2
      · assumption
      · intro hxseen
        exact ih (a :: seen) x h2 (List.mem_cons_of_mem a hxseen)

theorem dedupFirstAux_nodup (seen l : List String) :
    (dedupFirstAux seen l).Nodup := by
  induction l generalizing seen with
  | nil => simp [dedupFirstAux]
  | cons a t ih =>
    rw [dedupFirstAux]
    split
    · exact ih seen
    · refine List.nodup_cons.mpr ⟨fun hmem => ?_, ih (a :: seen)⟩
      exact not_mem_seen_dedupFirstAux (a :: seen) t a hmem
        (List.mem_cons_self a seen)

theorem dedupFirstAux_sublist (seen l : List String) :
    List.Sublist (dedupFirstAux seen l) l := by
  induction l generalizing seen with
  | nil => simp [dedupFirstAux]
  | cons a t ih =>
    rw [dedupFirstAux]
    split
    · exact (ih seen).cons a
    · exact (ih (a :: seen)).cons₂ a

theorem dedupFirst_sublist (l : List String) : List.Sublist (dedupFirst l) l :=
  dedupFirstAux_sublist [] l

theorem dedupFirst_nodup (l : List String) : (dedupFirst l).Nodup :=
  dedupFirstAux_nodup [] l

theorem sumCounts_bump (k : String) (m : List (String × Nat)) :
    sumCounts (bump k m) = sumCounts m + 1 := by
  induction m with
  | nil => rfl
  | cons p t ih =>
    obtain ⟨k', v⟩ := p
    by_cases h : k' = k <;> simp [bump, h, sumCounts] at ih ⊢ <;> omega

theorem sumCounts_foldl_bump (ks : List String) (m : List (String × Nat)) :
    sumCounts (ks.foldl (fun m k => bump k m) m) = sumCounts m + ks.length := by
  induction ks generalizing m with
  | nil => simp
  | cons k t ih =>
    rw [List.foldl_cons, ih, sumCounts_bump]
    simp [List.length_cons]
    omega

theorem sumCounts_tally (ks : List String) :
    sumCounts (tally ks) = ks.length := by
  have h := sumCounts_foldl_bump ks []
  simpa [tally, sumCounts] using h

theorem dayOf_add_mul (t k : Int) : dayOf (t + k * msPerDay) = dayOf t + k := by
  unfold dayOf msPerDay
  rw [Int.fdiv_eq_ediv _ (by norm_num), Int.fdiv_eq_ediv _ (by norm_num),
    Int.add_mul_ediv_right _ _ (by norm_num)]

theorem append_s_ne (x : String) : x ++ "s" ≠ x := by
  intro h
  have h2 := congrArg String.length h
  simp [String.length_append] at h2
  exact absurd h2 (by decide)

theorem recent_trend_eq (now : Int) (es : List Entry) :
    (analytics now es).recent_trend
      = (List.range 7).map (fun i : Nat =>
          (dayOf (now - 7 * msPerDay + (i : Int) * msPerDay),
           (es.filter fun e =>
             dayOf e.timestamp
               = dayOf (now - 7 * msPerDay + (i : Int) * msPerDay)).length)) := rfl

/-! ## Claim theorems -/

/-- Claim C4 (confirmed): `processInput` assigns the category by evaluating
the keyword groups as an ordered rule table — issue (fail, error, overheat,
crash, malfunction), then delay (delay, late, postpone), then quality (qa,
quality, defect, inspection), defaulting to event — where matching is
substring containment on the lower-cased text and the first matching group
wins; in particular an input containing both an issue keyword and a delay
keyword classifies as issue. -/
theorem category_first_match_priority :
    (∀ s : String, (processInput s).category
        = firstMatchRule categoryRules "event" (lowerStr s))
    ∧ (processInput "motor failure causing delay").category = "issue" := by
  constructor
  · intro s
    show categoryOf (lowerStr s) = _
    simp only [categoryOf, firstMatchRule, categoryRules, List.any_cons,
      List.any_nil, Bool.or_false, Bool.or_assoc]
  · decide

/-- Claim C5 (confirmed): `processInput` assigns the severity by evaluating
the keyword groups high (critical, urgent, emergency, severe), then medium
(important, significant, major), defaulting to low; consequently the
severity is always one of low, medium, high. -/
theorem severity_first_match_priority :
    (∀ s : String, (processInput s).severity
        = firstMatchRule severityRules "low" (lowerStr s))
    ∧ (∀ s : String,
        (processInput s).severity ∈ (["low", "medium", "high"] : List String)) := by
  constructor
  · intro s
    show severityOf (lowerStr s) = _
    simp only [severityOf, firstMatchRule, severityRules, List.any_cons,
      List.any_nil, Bool.or_false, Bool.or_assoc]
  · intro s
    show severityOf (lowerStr s) ∈ _
    unfold severityOf
    split
    · simp
    · split <;> simp

/-- Claim C7 (confirmed): the entity list returned by `processInput` never
contains duplicate strings; it is the raw match list deduplicated by exact
(case-sensitive) string equality, keeping the first occurrence of each
string in order (a sublist of the raw matches), so distinct-cased variants
of the same token are each retained, as on "Motor motor MOTOR". -/
theorem entities_nodup_first_occurrence :
    (∀ s : String, ((processInput s).entities).Nodup)
    ∧ (∀ s : String,
        List.Sublist (processInput s).entities (rawEntities s.data))
    ∧ (processInput "Motor motor MOTOR").entities = ["Motor", "motor", "MOTOR"] :=
  ⟨fun _ => dedupFirst_nodup _, fun _ => dedupFirst_sublist _, by decide⟩

/-- Claim C3 counterexample: on the input "took 0 hours to fix" the code
stores duration "0 hour" (no trailing "s", because the JS comparison
`"0" > 1` coerces the digit string to the number 0), while the claim's
character-wise comparison of the digit string against "1" would demand
"0 hours". -/
theorem duration_plural_string_cmp_cex :
    (processInput "took 0 hours to fix").duration = some "0 hour"
    ∧ durationByStringCmp ("took 0 hours to fix").data = some "0 hours"
    ∧ (processInput "took 0 hours to fix").duration
        ≠ durationByStringCmp ("took 0 hours to fix").data := by
  refine ⟨by decide, by decide, by decide⟩

/-- Claim C3 (corrected): for input matching the duration pattern, the
stored metric is `"<digits> <unit>"` with a trailing "s" appended exactly
when the numeric value of the matched digit string (JS number coercion) is
greater than 1 — not when the digit string differs from the string "1";
when the pattern does not match, no duration key is present. -/
theorem duration_plural_numeric :
    (∀ (s : String) (ds u : List Char), scanFirst durAt s.data = some (ds, u) →
        ((processInput s).duration
            = some (ds.asString ++ " " ++ u.asString ++ "s")
          ↔ 1 < digitsToNat ds))
    ∧ (∀ s : String, scanFirst durAt s.data = none →
        (processInput s).duration = none) := by
  constructor
  · intro s ds u h
    show durationOf s.data = _ ↔ _
    rw [durationOf, h, Option.map_some']
    show some (ds.asString ++ " " ++ u.asString
        ++ (if 1 < digitsToNat ds then "s" else "")) = _ ↔ _
    constructor
    · intro heq
      by_contra hd
      rw [if_neg hd] at heq
      have hlen := congrArg String.length (Option.some.inj heq)
      simp only [String.length_append] at hlen
      have h0 : ("" : String).length = 0 := rfl
      have h1 : ("s" : String).length = 1 := rfl
      rw [h0, h1] at hlen
      omega
    · intro hd
      rw [if_pos hd]
  · intro s h
    show durationOf s.data = none
    rw [durationOf, h]
    rfl

/-- Witness for `duration_plural_numeric` at concrete inputs. -/
theorem duration_plural_numeric_witness :
    ((processInput "3 hours").duration
        = some (['3'].asString ++ " " ++ ("hour".data).asString ++ "s")
      ↔ 1 < digitsToNat ['3'])
    ∧ (processInput "no numbers here").duration = none :=
  ⟨duration_plural_numeric.1 "3 hours" ['3'] "hour".data (by decide),
   duration_plural_numeric.2 "no numbers here" (by decide)⟩

/-- Claim C6 (confirmed): whenever the input matches the temperature
pattern, `processInput` stores `"<n>°"` from the digits of the first
occurrence only, with the unit always normalized to the degree symbol
regardless of which unit word matched — "95 fahrenheit" and "95 celsius"
both yield "95°" — and when the pattern does not match, the temperature
key is absent. -/
theorem temperature_unit_normalized :
    (∀ s : String, (processInput s).temperature
        = (scanFirst tempAt s.data).map (fun ds => ds.asString ++ "°"))
    ∧ (processInput "95 fahrenheit").temperature = some "95°"
    ∧ (processInput "95 celsius").temperature = some "95°"
    ∧ (processInput "95 degrees").temperature = some "95°"
    ∧ (processInput "reading 30 degrees then 40 degrees").temperature = some "30°"
    ∧ (processInput "no reading").temperature = none :=
  ⟨fun _ => rfl, by decide, by decide, by decide, by decide, by decide⟩

/-- Claim C9 (confirmed): `processInput` is deterministic and free of
hidden state — in the source it reads nothing but its argument, so its
embedding is a pure function, and identical input strings always produce
identical annotation values. -/
theorem interpret_deterministic (s t : String) (h : s = t) :
    processInput s = processInput t := by
  rw [h]

/-- Witness for `interpret_deterministic` at a concrete input. -/
theorem interpret_deterministic_witness :
    processInput "Motor overheating after 3 hours"
      = processInput "Motor overheating after 3 hours" :=
  interpret_deterministic _ _ rfl

/-- Claim C8 (confirmed): on an empty record collection the analytics
aggregation returns total 0, empty by_category, by_severity and
top_entities maps, and a 7-entry recent trend whose counts are all 0; the
embedding is a total function, so no error is possible. -/
theorem analytics_empty_collection (now : Int) :
    (analytics now []).total = 0
    ∧ (analytics now []).by_category = []
    ∧ (analytics now []).by_severity = []
    ∧ (analytics now []).top_entities = []
    ∧ ((analytics now []).recent_trend).length = 7
    ∧ ((analytics now []).recent_trend).map Prod.snd
        = [0, 0, 0, 0, 0, 0, 0] := by
  refine ⟨rfl, rfl, rfl, rfl, ?_, rfl⟩
  rw [recent_trend_eq, List.length_map, List.length_range]

/-- Claim C10 (confirmed): every record increments exactly one by_category
counter and exactly one by_severity counter, so over any record collection
the by_category counts sum to the total, and so do the by_severity
counts. -/
theorem tallies_sum_to_total (now : Int) (es : List Entry) :
    sumCounts ((analytics now es).by_category) = (analytics now es).total
    ∧ sumCounts ((analytics now es).by_severity) = (analytics now es).total := by
  constructor
  · show sumCounts (tally (es.map Entry.category)) = es.length
    rw [sumCounts_tally, List.length_map]
  · show sumCounts (tally (es.map Entry.severity)) = es.length
    rw [sumCounts_tally, List.length_map]

/-- Claim C1 counterexample: with "now" at the instant `7 * msPerDay`
(calendar day 7) and a single record created exactly at "now", the trend
buckets cover days 0..6 only — the bucket for now's own calendar date
(day 7) is absent, so the window does not run "through now", and the
record, although its date portion equals now's date, is counted in no
bucket. -/
theorem recent_trend_through_now_cex :
    ¬ (dayOf (7 * msPerDay)
        ∈ ((analytics (7 * msPerDay)
            [⟨"event", "low", [], 7 * msPerDay⟩]).recent_trend.map Prod.fst))
    ∧ ((analytics (7 * msPerDay)
        [⟨"event", "low", [], 7 * msPerDay⟩]).recent_trend.map Prod.snd)
        = [0, 0, 0, 0, 0, 0, 0] := by
  decide

/-- Claim C1 (corrected): the fixed 7-day recent trend always has exactly
7 consecutive calendar-day buckets, keyed by the calendar dates from 7
days before "now" through the day before "now" (the bucket for now's own
date is not included); a record is counted in a bucket exactly when the
date portion of its created_at equals that bucket's date, and days with
no matching records report count 0. -/
theorem recent_trend_seven_days_before_now (now : Int) (es : List Entry) :
    ((analytics now es).recent_trend.map Prod.fst)
        = (List.range 7).map (fun i : Nat => dayOf now - 7 + (i : Int))
    ∧ ∀ p ∈ (analytics now es).recent_trend,
        p.2 = es.countP (fun e => decide (dayOf e.timestamp = p.1)) := by
  constructor
  · rw [recent_trend_eq, List.map_map]
    refine List.map_congr_left fun i _ => ?_
    show dayOf (now - 7 * msPerDay + (i : Int) * msPerDay) = dayOf now - 7 + (i : Int)
    have harith : now - 7 * msPerDay + (i : Int) * msPerDay
        = now + ((i : Int) - 7) * msPerDay := by ring
    rw [harith, dayOf_add_mul]
    ring
  · intro p hp
    rw [analytics] at hp
    simp only [List.mem_map, List.mem_range] at hp
    obtain ⟨i, _, rfl⟩ := hp
    exact (List.countP_eq_length_filter _ _).symm

/-- Witness for `recent_trend_seven_days_before_now` at a concrete instant
and the first trend bucket. -/
theorem recent_trend_seven_days_before_now_witness :
    ((analytics 0 []).recent_trend.map Prod.fst)
        = (List.range 7).map (fun i : Nat => dayOf 0 - 7 + (i : Int))
    ∧ (((-7 : Int), (0 : Nat)) : Int × Nat).2
        = List.countP
            (fun e => decide (dayOf e.timestamp = (((-7 : Int), (0 : Nat)) : Int × Nat).1))
            ([] : List Entry) :=
  ⟨(recent_trend_seven_days_before_now 0 []).1,
   (recent_trend_seven_days_before_now 0 []).2 ((-7 : Int), (0 : Nat)) (by decide)⟩

/-- Claim C2 counterexample: a present but non-numeric `days` parameter
does not fall back to the default of 30 — it makes `parseInt` return NaN,
so the period is NaN and the filtered set is empty, unlike the
missing-parameter default which reports a 30-day period and counts the
record created at "now". -/
theorem trends_nonnumeric_days_cex :
    (trendsReport (some "abc") 0 [⟨"event", "low", [], 0⟩]).period_days ≠ some 30
    ∧ (trendsReport none 0 [⟨"event", "low", [], 0⟩]).period_days = some 30
    ∧ (trendsReport (some "abc") 0 [⟨"event", "low", [], 0⟩]).total_entries = 0
    ∧ (trendsReport none 0 [⟨"event", "low", [], 0⟩]).total_entries = 1 := by
  refine ⟨by decide, rfl, rfl, rfl⟩

/-- Claim C2 (corrected): the days parameter defaults to 30 only when it
is missing; a present non-numeric value does not fall back to the default
but yields a NaN period with an empty filtered set and a NaN average.  For
a numerically parsed days value d, the report counts the records whose
created_at is within d days of "now" and its avg_per_day is
total_entries / d (whose 2-decimal rendering the handler returns). -/
theorem trends_days_default_and_avg :
    (∀ (now : Int) (es : List Entry),
        trendsReport none now es = trendsReport (some "30") now es)
    ∧ (∀ (s : String) (now : Int) (es : List Entry), parseIntJS s = none →
        (trendsReport (some s) now es).period_days = none
        ∧ (trendsReport (some s) now es).total_entries = 0
        ∧ (trendsReport (some s) now es).avg_per_day = none)
    ∧ (∀ (s : String) (d now : Int) (es : List Entry), parseIntJS s = some d →
        (trendsReport (some s) now es).period_days = some d
        ∧ (trendsReport (some s) now es).total_entries
            = es.countP (fun e => decide (now - d * msPerDay ≤ e.timestamp))
        ∧ (trendsReport (some s) now es).avg_per_day
            = some (((es.countP
                (fun e => decide (now - d * msPerDay ≤ e.timestamp)) : Nat) : ℚ)
              / ((d : Int) : ℚ))) := by
  refine ⟨fun now es => rfl, ?_, ?_⟩
  · intro s now es h
    rw [trendsReport, h]
    exact ⟨rfl, rfl, rfl⟩
  · intro s d now es h
    rw [trendsReport, h]
    refine ⟨rfl, ?_, ?_⟩
    · exact (List.countP_eq_length_filter _ _).symm
    · rw [List.countP_eq_length_filter]

/-- Witness for `trends_days_default_and_avg` at concrete inputs. -/
theorem trends_days_default_and_avg_witness :
    ((trendsReport (some "abc") 0 ([] : List Entry)).period_days = none
      ∧ (trendsReport (some "abc") 0 ([] : List Entry)).total_entries = 0
      ∧ (trendsReport (some "abc") 0 ([] : List Entry)).avg_per_day = none)
    ∧ ((trendsReport (some "2") 0 ([] : List Entry)).period_days = some 2
      ∧ (trendsReport (some "2") 0 ([] : List Entry)).total_entries
          = List.countP (fun e => decide ((0 : Int) - 2 * msPerDay ≤ e.timestamp))
              ([] : List Entry)
      ∧ (trendsReport (some "2") 0 ([] : List Entry)).avg_per_day
          = some (((List.countP
              (fun e => decide ((0 : Int) - 2 * msPerDay ≤ e.timestamp))
              ([] : List Entry) : Nat) : ℚ) / ((2 : Int) : ℚ))) :=
  ⟨trends_days_default_and_avg.2.1 "abc" 0 [] (by decide),
   trends_days_default_and_avg.2.2 "2" 2 0 [] (by decide)⟩

end OpsTracker
